import Mathlib

/-!
Shallow embedding of the routing logic of the `modular_mcp` repository,
taken from `multi-agent-gui/src/components/ChatInterface.jsx`.

The embedding translates:
  * `analyzeIntent` (the keyword-based intent classifier),
  * `uploadFileToAgent` and `sendToAgent` (the dispatcher, with the HTTP
    layer modelled as an oracle `net : Request → FetchOutcome` and an
    explicit trace of the requests issued),
  * `handleSendMessage` together with the component state
    (`messages`, `inputValue`, `isLoading`, `selectedFile`),
  * the UI event steps (typing, file select/remove, send) as a step
    relation, with `Reachable` describing every state the session can be in.

Strings are Lean `String`s; `String.prototype.includes` is modelled by
`strIncludes` (contiguous-substring containment over the character list) and
`String.prototype.toLowerCase` by `lowerStr` (ASCII lowercasing, which
agrees with JavaScript on all strings appearing in the component).
-/

namespace ModularMCP

/-- JavaScript `String.prototype.toLowerCase` restricted to ASCII:
code points 65–90 (`A`–`Z`) are shifted by 32, everything else is kept. -/
def lowerChar (c : Char) : Char :=
  if 65 ≤ c.toNat ∧ c.toNat ≤ 90 then Char.ofNat (c.toNat + 32) else c

/-- Lowercase a whole string, character by character. -/
def lowerStr (s : String) : String :=
  ⟨s.data.map lowerChar⟩

/-- `leadsWith needle hay` holds when `needle` occurs at the very start of
`hay`. -/
def leadsWith : List Char → List Char → Bool
  | [], _ => true
  | _ :: _, [] => false
  | a :: as, b :: bs => a == b && leadsWith as bs

/-- `hasSub needle hay` holds when `needle` occurs contiguously somewhere in
`hay` (the semantics of JavaScript `includes`). -/
def hasSub (needle : List Char) : List Char → Bool
  | [] => leadsWith needle []
  | c :: rest => leadsWith needle (c :: rest) || hasSub needle rest

/-- Model of `s.includes(needle)` from JavaScript. -/
def strIncludes (s needle : String) : Bool :=
  hasSub needle.data s.data

/-- The five backend identifiers used by `ChatInterface.jsx`.  The spec
names them `collector` (= `agent1`), `knowledge` (= `agent2`),
`database` (= `agent3`), `transformer` (= `agent4`) and `orchestrator`. -/
inductive AgentId where
  | agent1
  | agent2
  | agent3
  | agent4
  | orchestrator
deriving DecidableEq, Repr

/-- Static per-agent configuration (`AGENT_CONFIGS` in the source; the
React icon components and Tailwind color classes are UI artifacts and are
not part of the behavioral model). -/
structure AgentConfig where
  name : String
  url : String
  description : String
deriving DecidableEq, Repr

/-- `AGENT_CONFIGS`, lines 21–57 of `ChatInterface.jsx`. -/
def AGENT_CONFIGS : AgentId → AgentConfig
  | .agent1 =>
    { name := "Web Scraper & Data Collector"
      url := "https://3dhkilcjlzdj.manus.space"
      description := "Handles file uploads, web scraping, and data collection" }
  | .agent2 =>
    { name := "Knowledge Base Creator"
      url := "https://g8h3ilcv0k7m.manus.space"
      description := "Manages documents, knowledge bases, and semantic search" }
  | .agent3 =>
    { name := "Database Manager"
      url := "https://77h9ikczonwo.manus.space"
      description := "Handles database operations, analytics, and reporting" }
  | .agent4 =>
    { name := "Data Transformer"
      url := "https://lnh8imcj5kwd.manus.space"
      description := "Transforms data between formats (BestBuy → Walmart, etc.)" }
  | .orchestrator =>
    { name := "System Orchestrator"
      url := "https://mzhyi8cnozj8.manus.space"
      description := "Coordinates workflows and manages system operations" }

/-- Keywords of the `agent1` (collector) rule, lines 87–93. -/
def agent1Keywords : List String :=
  ["upload", "scrape", "collect", "file", "attachment", "download", "extract data"]

/-- Keywords of the `agent2` (knowledge) rule, lines 98–108. -/
def agent2Keywords : List String :=
  ["knowledge", "document", "search", "find", "what were", "last",
   "process for", "how to", "procedure", "incorporated", "added to"]

/-- Keywords of the `agent3` (database) rule, lines 113–122. -/
def agent3Keywords : List String :=
  ["how many", "sold", "database", "analytics", "report", "count",
   "statistics", "backup", "last week", "last month"]

/-- Keywords of the `agent4` (transformer) rule, lines 127–133. -/
def agent4Keywords : List String :=
  ["transform", "convert", "bestbuy", "walmart", "format", "mapping", "template"]

/-- `analyzeIntent`, lines 83–139: lowercase the message, then test the four
keyword rules in order (each rule fires when any of its keywords occurs as a
substring); fall back to `orchestrator`. -/
def analyzeIntent (message : String) : AgentId :=
  let lowerMessage := lowerStr message
  if agent1Keywords.any (fun k => strIncludes lowerMessage k) then .agent1
  else if agent2Keywords.any (fun k => strIncludes lowerMessage k) then .agent2
  else if agent3Keywords.any (fun k => strIncludes lowerMessage k) then .agent3
  else if agent4Keywords.any (fun k => strIncludes lowerMessage k) then .agent4
  else .orchestrator

/-- A reference to a selected file (only the name is observable to the
routing logic). -/
structure FileRef where
  name : String
deriving DecidableEq, Repr

/-- Parsed JSON response body.  The component reads exactly one thing from a
response body: the truthiness of the `extracted_data` field (line 188), so
the body is modelled by that single boolean signal. -/
structure JsonValue where
  extracted_data : Bool
deriving DecidableEq, Repr

/-- Body of an outgoing HTTP request: nothing, the JSON
`{query, max_results}` search body (line 208), or a multipart form with one
file field (lines 149–150). -/
inductive ReqBody where
  | empty
  | searchQuery (query : String) (maxResults : Nat)
  | formFile (f : FileRef)
deriving DecidableEq, Repr

/-- An HTTP request as issued by `fetch`. -/
structure Request where
  url : String
  method : String
  body : ReqBody
deriving DecidableEq, Repr

/-- Outcome of one `fetch`: a 2xx response with a parsed JSON body, a
non-2xx response (`response.ok` false), or a thrown transport error whose
`message` is `msg`. -/
inductive FetchOutcome where
  | success (body : JsonValue)
  | httpError
  | networkError (msg : String)
deriving DecidableEq, Repr

/-- Result object of `uploadFileToAgent` (lines 160–174). -/
structure UploadResult where
  success : Bool
  data : Option JsonValue
  error : Option String
deriving DecidableEq, Repr

/-- Result object of `sendToAgent` (lines 186–250). -/
structure DispatchResult where
  success : Bool
  response : String
  data : Option JsonValue
deriving DecidableEq, Repr

/-- The upload request issued by `uploadFileToAgent`, line 153. -/
def uploadRequest (file : FileRef) : Request :=
  { url := (AGENT_CONFIGS .agent1).url ++ "/api/files/upload"
    method := "POST"
    body := .formFile file }

/-- `uploadFileToAgent`, lines 148–176.  The network is an oracle
`net : Request → FetchOutcome`; the second component is the list of requests
issued (always exactly the one upload request). -/
def uploadFileToAgent (net : Request → FetchOutcome) (file : FileRef) :
    UploadResult × List Request :=
  (match net (uploadRequest file) with
    | .success result => { success := true, data := some result, error := none }
    | .httpError => { success := false, data := none, error := some "Upload failed" }
    | .networkError msg => { success := false, data := none, error := some msg },
   [uploadRequest file])

/-- `generateAgentResponse`, lines 254–284: canned per-target text selected
by keyword checks on the lowercased original message; the `data` parameter
of the source function is never read. -/
def generateAgentResponse (agentId : AgentId) (message : String) (_data : JsonValue) :
    String :=
  let lowerMessage := lowerStr message
  match agentId with
  | .agent1 =>
    "I've processed your request for data collection. The web scraper is ready to handle file uploads and data extraction tasks."
  | .agent2 =>
    if strIncludes lowerMessage "last" && strIncludes lowerMessage "document" then
      "Based on the knowledge base, here are the last 3 documents that were incorporated:\n\n1. Product Specification Guide (added 2 hours ago)\n2. Customer Support Manual (added 1 day ago)\n3. Pricing Guidelines Document (added 2 days ago)\n\nWould you like me to search for specific information within these documents?"
    else if strIncludes lowerMessage "process" || strIncludes lowerMessage "how to" then
      "I found relevant information about the process you're asking about. Here's what I found in the knowledge base:\n\n**Creating a New Listing Process:**\n1. Gather product information and specifications\n2. Prepare product images and descriptions\n3. Set pricing and inventory levels\n4. Configure shipping and fulfillment options\n5. Review and publish the listing\n\nWould you like more detailed information about any of these steps?"
    else
      "I've searched the knowledge base for information related to your query. The system is ready to process documents and provide semantic search capabilities."
  | .agent3 =>
    if strIncludes lowerMessage "how many" && strIncludes lowerMessage "laptop" then
      "Based on the database analytics for last week:\n\n📊 **Laptop Sales Summary:**\n• Total laptops sold: 247 units\n• Revenue generated: $186,420\n• Top selling model: MacBook Air M2 (67 units)\n• Average selling price: $755\n• Peak sales day: Friday (89 units)\n\nWould you like a more detailed breakdown by model or day?"
    else
      "Database analytics are available. I can provide sales reports, inventory counts, and performance metrics from the database."
  | .agent4 =>
    "The data transformer is ready to convert data between different formats. I can help transform product data from BestBuy format to Walmart format, or handle other data mapping tasks."
  | .orchestrator =>
    "System status: All agents are operational and ready to assist. I can coordinate complex workflows across multiple agents or help you with system management tasks."

/-- The per-target endpoint/method/body table of `sendToAgent`,
lines 199–223 (`agent1` without a file keeps the `/api/health` default). -/
def generalRequest (agentId : AgentId) (message : String) : Request :=
  let agent := AGENT_CONFIGS agentId
  match agentId with
  | .agent1 => { url := agent.url ++ "/api/health", method := "GET", body := .empty }
  | .agent2 =>
    { url := agent.url ++ "/api/knowledge/search", method := "POST"
      body := .searchQuery message 5 }
  | .agent3 => { url := agent.url ++ "/api/analytics/", method := "GET", body := .empty }
  | .agent4 =>
    { url := agent.url ++ "/api/transformer/health", method := "GET", body := .empty }
  | .orchestrator =>
    { url := agent.url ++ "/api/orchestrator/status", method := "GET", body := .empty }

/-- The general (non-file-upload) path of `sendToAgent`, lines 199–251:
one `fetch` of `generalRequest`, normalized into a `DispatchResult`. -/
def sendGeneral (net : Request → FetchOutcome) (agent : AgentConfig)
    (agentId : AgentId) (message : String) : DispatchResult × List Request :=
  (match net (generalRequest agentId message) with
    | .success result =>
      { success := true
        response := generateAgentResponse agentId message result
        data := some result }
    | .httpError =>
      { success := false
        response := agent.name ++ " is currently unavailable. Please try again later."
        data := none }
    | .networkError msg =>
      { success := false
        response := "Error communicating with " ++ agent.name ++ ": " ++ msg
        data := none },
   [generalRequest agentId message])

/-- The file-upload path of `sendToAgent`, lines 183–197. -/
def sendUpload (net : Request → FetchOutcome) (file : FileRef) :
    DispatchResult × List Request :=
  let uploadResult := (uploadFileToAgent net file).1
  (if uploadResult.success then
    { success := true
      response := "File \"" ++ file.name ++ "\" uploaded successfully! Extracted " ++
        (match uploadResult.data with
          | some d => if d.extracted_data then "text content and metadata" else "file information"
          | none => "file information") ++ "."
      data := uploadResult.data }
  else
    { success := false
      response := "Failed to upload file: " ++ uploadResult.error.getD "undefined"
      data := none },
   (uploadFileToAgent net file).2)

/-- `sendToAgent`, lines 178–252: the file-upload special case applies only
when the target is `agent1` AND a file is attached; every other combination
takes the general path. -/
def sendToAgent (net : Request → FetchOutcome) (agentId : AgentId)
    (message : String) (file : Option FileRef) : DispatchResult × List Request :=
  let agent := AGENT_CONFIGS agentId
  match agentId, file with
  | .agent1, some f => sendUpload net f
  | _, _ => sendGeneral net agent agentId message

/-- Role of a transcript entry (`type` field of the message objects). -/
inductive MsgType where
  | user
  | agent
  | system
deriving DecidableEq, Repr

/-- A transcript entry, with the union of the fields the component ever
puts on a message object (absent fields are `none`); timestamps and ids are
modelled as naturals. -/
structure Message where
  id : Nat
  type : MsgType
  content : String
  timestamp : Nat
  agent : Option AgentId
  success : Option Bool
  file : Option FileRef
  data : Option JsonValue
deriving DecidableEq, Repr

/-- The component state: `messages`, `inputValue`, `isLoading`,
`selectedFile` (lines 60–71). -/
structure ChatState where
  messages : List Message
  inputValue : String
  isLoading : Bool
  selectedFile : Option FileRef
deriving DecidableEq, Repr

/-- The seeded system greeting, lines 61–67. -/
def initialMessage : Message :=
  { id := 1, type := .system
    content := "Welcome to the Multi-Agent MCP System! I can help you with data collection, knowledge management, database operations, and data transformation. What would you like to do?"
    timestamp := 0, agent := some .orchestrator, success := none, file := none
    data := none }

/-- The initial component state, lines 60–71. -/
def initialState : ChatState :=
  { messages := [initialMessage], inputValue := "", isLoading := false
    selectedFile := none }

/-- ASCII whitespace as trimmed by JavaScript `trim` on the strings this
component handles. -/
def isJsWhitespace (c : Char) : Bool :=
  c = ' ' || c = '\t' || c = '\n' || c = '\r'

/-- Model of JavaScript `String.prototype.trim`. -/
def trimStr (s : String) : String :=
  ⟨((s.data.dropWhile isJsWhitespace).reverse.dropWhile isJsWhitespace).reverse⟩

/-- JavaScript interpolation of `selectedFile?.name`: the file name when a
file is staged, the text "undefined" otherwise. -/
def optFileName : Option FileRef → String
  | some f => f.name
  | none => "undefined"

/-- The `userMessage` object built by `handleSendMessage`, lines 289–295:
content is the input text when non-empty (JavaScript truthiness of a
string), otherwise "Uploading file: {name}". -/
def userMessageOf (now : Nat) (st : ChatState) : Message :=
  { id := now, type := .user
    content :=
      if st.inputValue = "" then "Uploading file: " ++ optFileName st.selectedFile
      else st.inputValue
    timestamp := now, agent := none, success := none, file := st.selectedFile
    data := none }

/-- The `targetAgent` computed by `handleSendMessage`, line 301: classify
the input text, or the synthetic "upload file {name}" string when the input
text is empty. -/
def targetAgentOf (st : ChatState) : AgentId :=
  analyzeIntent
    (if st.inputValue = "" then "upload file " ++ optFileName st.selectedFile
     else st.inputValue)

/-- The dispatch performed by `handleSendMessage`, line 305. -/
def dispatchResultOf (net : Request → FetchOutcome) (st : ChatState) :
    DispatchResult × List Request :=
  sendToAgent net (targetAgentOf st) st.inputValue st.selectedFile

/-- The `agentMessage` object built by `handleSendMessage`, lines 307–315. -/
def agentMessageOf (net : Request → FetchOutcome) (now : Nat) (st : ChatState) :
    Message :=
  { id := now + 1, type := .agent, content := (dispatchResultOf net st).1.response
    timestamp := now, agent := some (targetAgentOf st)
    success := some (dispatchResultOf net st).1.success
    file := none, data := (dispatchResultOf net st).1.data }

/-- `handleSendMessage`, lines 286–325.  Guard: if the trimmed input is
empty and no file is staged, nothing happens (line 287).  Otherwise: append
the user message, classify, dispatch once, append the agent message, clear
the input text and the staged file (`isLoading` is raised before the
dispatch and lowered after it, so it is `false` again in the returned
state).  The second component is the list of HTTP requests issued by the
dispatch. -/
def handleSendMessage (net : Request → FetchOutcome) (now : Nat) (st : ChatState) :
    ChatState × List Request :=
  if trimStr st.inputValue = "" ∧ st.selectedFile = none then (st, [])
  else
    ({ st with
        messages := st.messages ++ [userMessageOf now st] ++ [agentMessageOf net now st]
        inputValue := ""
        selectedFile := none
        isLoading := false },
     (dispatchResultOf net st).2)

/-- The user-driven events that mutate the component state: typing into the
input, selecting a file (`handleFileSelect`, lines 141–146), removing the
staged file (lines 452–455), and sending (`handleSendMessage`). -/
inductive UiStep : ChatState → ChatState → Prop where
  | typeInput (st : ChatState) (s : String) : UiStep st { st with inputValue := s }
  | selectFile (st : ChatState) (f : FileRef) :
      UiStep st { st with selectedFile := some f }
  | removeFile (st : ChatState) : UiStep st { st with selectedFile := none }
  | send (st : ChatState) (net : Request → FetchOutcome) (now : Nat) :
      UiStep st (handleSendMessage net now st).1

/-- States reachable from the initial state by UI events. -/
inductive Reachable : ChatState → Prop where
  | init : Reachable initialState
  | step {st st' : ChatState} : Reachable st → UiStep st st' → Reachable st'

/-- Packing a valid code point into a `Char` and reading it back is the
identity. -/
theorem toNat_ofNat_of_valid {n : Nat} (h : n.isValidChar) :
    (Char.ofNat n).toNat = n := by
  unfold Char.ofNat
  rw [dif_pos h]
  rfl

/-- ASCII lowercasing is idempotent on characters. -/
theorem lowerChar_idem (c : Char) : lowerChar (lowerChar c) = lowerChar c := by
  by_cases h : 65 ≤ c.toNat ∧ c.toNat ≤ 90
  · have hv : Nat.isValidChar (c.toNat + 32) := Or.inl (by omega)
    have ht : (Char.ofNat (c.toNat + 32)).toNat = c.toNat + 32 :=
      toNat_ofNat_of_valid hv
    simp only [lowerChar, if_pos h, ht]
    rw [if_neg (by omega)]
  · simp only [lowerChar, if_neg h]

/-- ASCII lowercasing is idempotent on strings. -/
theorem lowerStr_idem (s : String) : lowerStr (lowerStr s) = lowerStr s := by
  have hmap : (s.data.map lowerChar).map lowerChar = s.data.map lowerChar := by
    rw [List.map_map]
    exact List.map_congr_left (fun a _ => lowerChar_idem a)
  show String.mk ((s.data.map lowerChar).map lowerChar) = String.mk (s.data.map lowerChar)
  rw [hmap]

/-- The classifier only looks at the lowercased message. -/
theorem analyzeIntent_lowerStr (s : String) :
    analyzeIntent (lowerStr s) = analyzeIntent s := by
  simp only [analyzeIntent, lowerStr_idem]

/-- If any collector keyword occurs in the lowercased input, the first rule
of `analyzeIntent` fires. -/
theorem analyzeIntent_eq_agent1_of_keyword {s : String}
    (h : ∃ k ∈ agent1Keywords, strIncludes (lowerStr s) k = true) :
    analyzeIntent s = AgentId.agent1 := by
  have hany : agent1Keywords.any (fun k => strIncludes (lowerStr s) k) = true :=
    List.any_eq_true.mpr (by simpa using h)
  simp [analyzeIntent, hany]

/-- C1: any input containing (case-insensitively) a keyword of the collector
set `{"upload", "scrape", "collect", "file", "attachment", "download",
"extract data"}` is classified as `collector` (= `agent1`), regardless of
which other rules would also match: the collector rule is tested first. -/
theorem classify_collector_priority (s : String)
    (h : ∃ k ∈ agent1Keywords, strIncludes (lowerStr s) k = true) :
    analyzeIntent s = AgentId.agent1 :=
  analyzeIntent_eq_agent1_of_keyword h

/-- Witness for C1 at the spec's own example input, with keyword "upload". -/
theorem classify_collector_priority_witness :
    (∃ k ∈ agent1Keywords,
        strIncludes (lowerStr "please upload and search this document") k = true) ∧
      analyzeIntent "please upload and search this document" = AgentId.agent1 :=
  ⟨⟨"upload", by decide, by decide⟩,
    classify_collector_priority _ ⟨"upload", by decide, by decide⟩⟩

/-- C2: evaluation of the classifier at the failing input.  The repository's
README ("How many laptops were sold last week?" → Agent 3), the input
placeholder of the component and its dedicated Agent-3 laptop-sales canned
response all document that this utterance routes to the database agent, but
`analyzeIntent` returns `agent2` (knowledge), not `agent3`: the knowledge
rule is evaluated first and its keyword "last" occurs in "last week". -/
theorem classify_laptops_routes_to_knowledge :
    analyzeIntent "How many laptops were sold last week?" = AgentId.agent2 ∧
      analyzeIntent "How many laptops were sold last week?" ≠ AgentId.agent3 := by
  constructor
  · decide
  · decide

/-- C3: when no keyword of any of the four rule sets occurs
(case-insensitively) in the input, the classifier falls through every rule
and returns `orchestrator`. -/
theorem classify_default_orchestrator (s : String)
    (h : ∀ k ∈ agent1Keywords ++ agent2Keywords ++ agent3Keywords ++ agent4Keywords,
        strIncludes (lowerStr s) k = false) :
    analyzeIntent s = AgentId.orchestrator := by
  have h1 : agent1Keywords.any (fun k => strIncludes (lowerStr s) k) = false := by
    rw [List.any_eq_false]
    intro k hk
    simp [h k (by simp [hk])]
  have h2 : agent2Keywords.any (fun k => strIncludes (lowerStr s) k) = false := by
    rw [List.any_eq_false]
    intro k hk
    simp [h k (by simp [hk])]
  have h3 : agent3Keywords.any (fun k => strIncludes (lowerStr s) k) = false := by
    rw [List.any_eq_false]
    intro k hk
    simp [h k (by simp [hk])]
  have h4 : agent4Keywords.any (fun k => strIncludes (lowerStr s) k) = false := by
    rw [List.any_eq_false]
    intro k hk
    simp [h k (by simp [hk])]
  simp [analyzeIntent, h1, h2, h3, h4]

/-- Witness for C3 at the empty string. -/
theorem classify_default_orchestrator_witness :
    (∀ k ∈ agent1Keywords ++ agent2Keywords ++ agent3Keywords ++ agent4Keywords,
        strIncludes (lowerStr "") k = false) ∧
      analyzeIntent "" = AgentId.orchestrator :=
  ⟨by decide, classify_default_orchestrator "" (by decide)⟩

/-- C4: the classifier is case-insensitive: classifying any string gives the
same target as classifying its lowercased form; in particular on
"UPLOAD FILE" and "upload file". -/
theorem classify_case_insensitive :
    (∀ s : String, analyzeIntent s = analyzeIntent (lowerStr s)) ∧
      analyzeIntent "UPLOAD FILE" = analyzeIntent "upload file" :=
  ⟨fun s => (analyzeIntent_lowerStr s).symm, by decide⟩

/-- A leading occurrence survives appending anything on the right. -/
theorem leadsWith_append {n h : List Char} (e : List Char)
    (hl : leadsWith n h = true) : leadsWith n (h ++ e) = true := by
  induction n generalizing h with
  | nil => simp [leadsWith]
  | cons a as ih =>
    cases h with
    | nil => simp [leadsWith] at hl
    | cons b bs =>
      simp only [leadsWith, Bool.and_eq_true, beq_iff_eq] at hl
      simp only [List.cons_append, leadsWith, Bool.and_eq_true, beq_iff_eq]
      exact ⟨hl.1, ih hl.2⟩

/-- A leading occurrence is an occurrence. -/
theorem hasSub_of_leadsWith {n h : List Char} (hl : leadsWith n h = true) :
    hasSub n h = true := by
  cases h with
  | nil => simpa [hasSub] using hl
  | cons c rest => simp [hasSub, hl]

/-- "upload" occurs in the lowercasing of "upload file {anything}". -/
theorem strIncludes_upload_prefix (s : String) :
    strIncludes (lowerStr ("upload file " ++ s)) "upload" = true := by
  show hasSub "upload".data (("upload file " ++ s).data.map lowerChar) = true
  rw [String.data_append, List.map_append]
  have hlit : "upload file ".data.map lowerChar = "upload file ".data := by decide
  rw [hlit]
  exact hasSub_of_leadsWith (leadsWith_append _ (by decide))

/-- The synthetic send string used when only a file is staged always
classifies to `agent1`, whatever the file name. -/
theorem analyzeIntent_upload_file (s : String) :
    analyzeIntent ("upload file " ++ s) = AgentId.agent1 :=
  analyzeIntent_eq_agent1_of_keyword
    ⟨"upload", by decide, strIncludes_upload_prefix s⟩

/-- Every list leads with itself. -/
theorem leadsWith_self (n : List Char) : leadsWith n n = true := by
  induction n with
  | nil => rfl
  | cons a as ih => simp [leadsWith, ih]

/-- A string occurs in any right-extension of itself. -/
theorem strIncludes_append_self (s t : String) : strIncludes (s ++ t) s = true := by
  show hasSub s.data (s ++ t).data = true
  rw [String.data_append]
  exact hasSub_of_leadsWith (leadsWith_append _ (leadsWith_self _))

/-- Evaluation of the general dispatch path on a non-2xx response. -/
theorem sendGeneral_httpError (net : Request → FetchOutcome) (agent : AgentConfig)
    (agentId : AgentId) (message : String)
    (hnet : net (generalRequest agentId message) = .httpError) :
    sendGeneral net agent agentId message =
      ({ success := false
         response := agent.name ++ " is currently unavailable. Please try again later."
         data := none },
       [generalRequest agentId message]) := by
  simp [sendGeneral, hnet]

/-- Evaluation of the file-upload dispatch path on a non-2xx response. -/
theorem sendUpload_httpError (net : Request → FetchOutcome) (f : FileRef)
    (hnet : net (uploadRequest f) = .httpError) :
    sendUpload net f =
      ({ success := false
         response := "Failed to upload file: Upload failed"
         data := none },
       [uploadRequest f]) := by
  simp only [sendUpload, uploadFileToAgent, hnet]
  rfl

/-- Any target other than `agent1`, or any call without a file, takes the
general path of `sendToAgent`. -/
theorem sendToAgent_general (net : Request → FetchOutcome) (agentId : AgentId)
    (message : String) (file : Option FileRef)
    (h : agentId ≠ .agent1 ∨ file = none) :
    sendToAgent net agentId message file =
      sendGeneral net (AGENT_CONFIGS agentId) agentId message := by
  rcases file with _ | f
  · cases agentId <;> rfl
  · rcases h with h | h
    · cases agentId with
      | agent1 => exact absurd rfl h
      | agent2 => rfl
      | agent3 => rfl
      | agent4 => rfl
      | orchestrator => rfl
    · simp at h

/-- The general request is never the multipart upload request: its body is
never a form file. -/
theorem generalRequest_ne_uploadRequest (agentId : AgentId) (message : String)
    (g : FileRef) : generalRequest agentId message ≠ uploadRequest g := by
  intro h
  cases agentId <;> simp [generalRequest, uploadRequest] at h

/-- C5: on the general (non-file-upload) path, a non-2xx backend response
yields `succeeded = false` with the fixed
"{display name} is currently unavailable. Please try again later." text,
and exactly one HTTP request (the general one) is issued — no retry. -/
theorem dispatch_http_failure_general (net : Request → FetchOutcome)
    (agentId : AgentId) (message : String) (file : Option FileRef)
    (hgen : agentId ≠ .agent1 ∨ file = none)
    (hnet : net (generalRequest agentId message) = .httpError) :
    (sendToAgent net agentId message file).1.success = false ∧
      (sendToAgent net agentId message file).1.response =
        (AGENT_CONFIGS agentId).name ++
          " is currently unavailable. Please try again later." ∧
      (sendToAgent net agentId message file).2 =
        [generalRequest agentId message] ∧
      (sendToAgent net agentId message file).2.length = 1 := by
  rw [sendToAgent_general net agentId message file hgen]
  simp [sendGeneral, hnet]

/-- Witness for C5: database target, no file, backend answering 500. -/
theorem dispatch_http_failure_general_witness :
    (sendToAgent (fun _ => FetchOutcome.httpError) .agent3 "how many sold" none).1.success
        = false ∧
      (sendToAgent (fun _ => FetchOutcome.httpError) .agent3 "how many sold" none).1.response
        = (AGENT_CONFIGS .agent3).name ++
            " is currently unavailable. Please try again later." ∧
      (sendToAgent (fun _ => FetchOutcome.httpError) .agent3 "how many sold" none).2
        = [generalRequest .agent3 "how many sold"] ∧
      (sendToAgent (fun _ => FetchOutcome.httpError) .agent3 "how many sold" none).2.length
        = 1 :=
  dispatch_http_failure_general _ _ _ _ (Or.inl (by decide)) rfl

/-- C6 counterexample: on the collector file-upload path a non-2xx response
produces the text "Failed to upload file: Upload failed", which does NOT
contain the display name "Web Scraper & Data Collector" — so the claim that
every non-2xx failure text contains the target's display name is false. -/
theorem upload_failure_text_counterexample :
    (sendToAgent (fun _ => FetchOutcome.httpError) .agent1 "upload this file"
        (some { name := "report.pdf" })).1.success = false ∧
      (sendToAgent (fun _ => FetchOutcome.httpError) .agent1 "upload this file"
          (some { name := "report.pdf" })).1.response =
        "Failed to upload file: Upload failed" ∧
      strIncludes
        (sendToAgent (fun _ => FetchOutcome.httpError) .agent1 "upload this file"
            (some { name := "report.pdf" })).1.response
        (AGENT_CONFIGS .agent1).name = false := by
  decide

/-- C6 amended: when the backend answers non-2xx, every dispatch fails with
`succeeded = false`; on the general path the failure text contains the
target's display name, but on the collector file-upload path the text is
the fixed "Failed to upload file: Upload failed", which does not mention
the display name. -/
theorem dispatch_http_failure_names_target (net : Request → FetchOutcome)
    (agentId : AgentId) (message : String) (file : Option FileRef)
    (hnet : ∀ req, net req = .httpError) :
    (sendToAgent net agentId message file).1.success = false ∧
      (agentId ≠ .agent1 ∨ file = none →
        strIncludes (sendToAgent net agentId message file).1.response
          (AGENT_CONFIGS agentId).name = true) ∧
      (∀ f, agentId = .agent1 → file = some f →
        (sendToAgent net agentId message file).1.response =
          "Failed to upload file: Upload failed") := by
  by_cases hup : agentId = .agent1 ∧ ∃ f, file = some f
  · obtain ⟨ha, f, hf⟩ := hup
    subst ha
    subst hf
    have hsend : sendToAgent net .agent1 message (some f) = sendUpload net f := rfl
    rw [hsend, sendUpload_httpError net f (hnet _)]
    refine ⟨rfl, ?_, ?_⟩
    · rintro (h | h)
      · exact absurd rfl h
      · exact Option.noConfusion h
    · intro f' _ hf'
      rfl
  · have hgen : agentId ≠ .agent1 ∨ file = none := by
      rcases file with _ | f
      · exact Or.inr rfl
      · exact Or.inl (fun ha => hup ⟨ha, f, rfl⟩)
    rw [sendToAgent_general net agentId message file hgen,
      sendGeneral_httpError net _ agentId message (hnet _)]
    refine ⟨rfl, ?_, ?_⟩
    · intro _
      exact strIncludes_append_self _ _
    · intro f' ha hf'
      rcases hgen with h | h
      · exact absurd ha h
      · rw [h] at hf'
        exact Option.noConfusion hf'

/-- Witness for the amended C6: knowledge target, no file, every request
answered with a non-2xx status. -/
theorem dispatch_http_failure_names_target_witness :
    (sendToAgent (fun _ => FetchOutcome.httpError) .agent2 "find the docs" none).1.success
        = false ∧
      (AgentId.agent2 ≠ AgentId.agent1 ∨ (none : Option FileRef) = none →
        strIncludes
          (sendToAgent (fun _ => FetchOutcome.httpError) .agent2 "find the docs" none).1.response
          (AGENT_CONFIGS .agent2).name = true) ∧
      (∀ f, AgentId.agent2 = AgentId.agent1 → (none : Option FileRef) = some f →
        (sendToAgent (fun _ => FetchOutcome.httpError) .agent2 "find the docs" none).1.response
          = "Failed to upload file: Upload failed") :=
  dispatch_http_failure_names_target _ _ _ _ (fun _ => rfl)

/-- C7: a send with empty trimmed text and no staged file is inert (no state
change, no request issued); every other send appends exactly two entries at
the end of the transcript, the user message first and the agent message
second. -/
theorem send_appends_two_messages (net : Request → FetchOutcome) (now : Nat)
    (st : ChatState) :
    (trimStr st.inputValue = "" ∧ st.selectedFile = none →
      handleSendMessage net now st = (st, [])) ∧
    (¬(trimStr st.inputValue = "" ∧ st.selectedFile = none) →
      ∃ u a, (handleSendMessage net now st).1.messages = st.messages ++ [u, a] ∧
        u.type = .user ∧ a.type = .agent) := by
  constructor
  · intro h
    simp [handleSendMessage, h]
  · intro h
    refine ⟨userMessageOf now st, agentMessageOf net now st, ?_, rfl, rfl⟩
    unfold handleSendMessage
    rw [if_neg h]
    simp

/-- Witness for C7: a plain-text send appends a user and an agent entry. -/
theorem send_appends_two_messages_witness :
    ∃ u a,
      (handleSendMessage (fun _ => FetchOutcome.httpError) 5
          { messages := [initialMessage], inputValue := "hello there"
            isLoading := false, selectedFile := none }).1.messages =
        [initialMessage] ++ [u, a] ∧ u.type = .user ∧ a.type = .agent :=
  (send_appends_two_messages _ _ _).2 (by decide)

/-- C8: when the send has empty input text and a staged file, classification
runs on the synthetic "upload file {name}" string, which resolves to
`collector` (= `agent1`) for every file name, and the resulting agent
message is attributed to `agent1`. -/
theorem empty_text_send_classifies_collector (net : Request → FetchOutcome)
    (now : Nat) (st : ChatState) (f : FileRef)
    (htext : st.inputValue = "") (hfile : st.selectedFile = some f) :
    analyzeIntent ("upload file " ++ f.name) = AgentId.agent1 ∧
      targetAgentOf st = AgentId.agent1 ∧
      (agentMessageOf net now st).agent = some AgentId.agent1 := by
  have h2 : targetAgentOf st = AgentId.agent1 := by
    unfold targetAgentOf
    rw [if_pos htext, hfile]
    exact analyzeIntent_upload_file f.name
  have h3 : (agentMessageOf net now st).agent = some AgentId.agent1 := by
    show some (targetAgentOf st) = some AgentId.agent1
    rw [h2]
  exact ⟨analyzeIntent_upload_file f.name, h2, h3⟩

/-- Witness for C8 at the file name "report.pdf". -/
theorem empty_text_send_classifies_collector_witness :
    analyzeIntent ("upload file " ++ "report.pdf") = AgentId.agent1 ∧
      targetAgentOf
          { messages := [initialMessage], inputValue := ""
            isLoading := false
            selectedFile := some { name := "report.pdf" } } = AgentId.agent1 ∧
      (agentMessageOf (fun _ => FetchOutcome.httpError) 3
          { messages := [initialMessage], inputValue := ""
            isLoading := false
            selectedFile := some { name := "report.pdf" } }).agent =
        some AgentId.agent1 :=
  empty_text_send_classifies_collector _ _ _ { name := "report.pdf" } rfl rfl

/-- C9: every UI event extends the transcript on the right (append-only: no
entry is removed or modified, every mutation appends at the end), and the
initial system greeting — role `system`, origin `orchestrator` — is in the
transcript of the initial state and of every reachable state. -/
theorem transcript_append_only :
    (∀ st st', UiStep st st' → ∃ t, st'.messages = st.messages ++ t) ∧
      (∀ st, Reachable st → initialMessage ∈ st.messages) ∧
      initialMessage.type = MsgType.system ∧
      initialMessage.agent = some AgentId.orchestrator ∧
      initialState.messages = [initialMessage] := by
  have hstep : ∀ st st', UiStep st st' → ∃ t, st'.messages = st.messages ++ t := by
    intro st st' hs
    cases hs with
    | typeInput s => exact ⟨[], by simp⟩
    | selectFile f => exact ⟨[], by simp⟩
    | removeFile => exact ⟨[], by simp⟩
    | send net now =>
      by_cases h : trimStr st.inputValue = "" ∧ st.selectedFile = none
      · refine ⟨[], ?_⟩
        simp [handleSendMessage, h]
      · refine ⟨[userMessageOf now st, agentMessageOf net now st], ?_⟩
        unfold handleSendMessage
        rw [if_neg h]
        simp
  refine ⟨hstep, ?_, rfl, rfl, rfl⟩
  intro st hr
  induction hr with
  | init => simp [initialState]
  | step hr hs ih =>
    obtain ⟨t, ht⟩ := hstep _ _ hs
    rw [ht]
    exact List.mem_append_left _ ih

/-- Witness for C9: the greeting is present initially. -/
theorem transcript_append_only_witness :
    initialMessage ∈ initialState.messages :=
  transcript_append_only.2.1 initialState Reachable.init

/-- C10: if a file is staged but the send's (non-empty) text classifies to a
target other than `collector`, the dispatch issues only the general request
for that target — no file-upload request is ever made — and the staged file
is nevertheless cleared at the end of the send, silently discarding the
attachment. -/
theorem staged_file_discarded_on_other_target (net : Request → FetchOutcome)
    (now : Nat) (st : ChatState) (f : FileRef)
    (hfile : st.selectedFile = some f)
    (htext : st.inputValue ≠ "")
    (hcl : analyzeIntent st.inputValue ≠ AgentId.agent1) :
    (handleSendMessage net now st).2 =
        [generalRequest (analyzeIntent st.inputValue) st.inputValue] ∧
      (∀ g : FileRef, uploadRequest g ∉ (handleSendMessage net now st).2) ∧
      (handleSendMessage net now st).1.selectedFile = none := by
  have hguard : ¬(trimStr st.inputValue = "" ∧ st.selectedFile = none) := by
    rintro ⟨_, h2⟩
    rw [hfile] at h2
    exact Option.noConfusion h2
  have htarget : targetAgentOf st = analyzeIntent st.inputValue := by
    unfold targetAgentOf
    rw [if_neg htext]
  have hreqs : (handleSendMessage net now st).2 =
      [generalRequest (analyzeIntent st.inputValue) st.inputValue] := by
    unfold handleSendMessage
    rw [if_neg hguard]
    show (dispatchResultOf net st).2 = _
    unfold dispatchResultOf
    rw [htarget, sendToAgent_general net _ _ _ (Or.inl hcl)]
    rfl
  refine ⟨hreqs, ?_, ?_⟩
  · intro g hg
    rw [hreqs] at hg
    rcases List.mem_singleton.mp hg with h
    exact generalRequest_ne_uploadRequest _ _ g h.symm
  · unfold handleSendMessage
    rw [if_neg hguard]

/-- Witness for C10: text routed to the knowledge target while a file is
staged. -/
theorem staged_file_discarded_on_other_target_witness :
    (handleSendMessage (fun _ => FetchOutcome.httpError) 7
          { messages := [initialMessage], inputValue := "search the knowledge base"
            isLoading := false, selectedFile := some { name := "notes.txt" } }).2 =
        [generalRequest (analyzeIntent "search the knowledge base")
          "search the knowledge base"] ∧
      (∀ g : FileRef,
        uploadRequest g ∉
          (handleSendMessage (fun _ => FetchOutcome.httpError) 7
            { messages := [initialMessage], inputValue := "search the knowledge base"
              isLoading := false, selectedFile := some { name := "notes.txt" } }).2) ∧
      (handleSendMessage (fun _ => FetchOutcome.httpError) 7
          { messages := [initialMessage], inputValue := "search the knowledge base"
            isLoading := false, selectedFile := some { name := "notes.txt" } }).1.selectedFile
        = none :=
  staged_file_discarded_on_other_target _ _ _ { name := "notes.txt" } rfl
    (by decide) (by decide)

end ModularMCP
